import Mathlib

/-!
Shallow embedding of the environmental-dashboard frontend
(`static/app.js` and `static/apis_statistics.js`).

The embedding models the client-side orchestration state (ROI flag,
per-layer analyzed flags, toggle check/disable state, overlay and legend
caches, the active layer, status texts) and the operations `setupROI`,
`analyzeLayer`, `updateLayerVisibility`, `setActiveLayer`, the toggle
event handlers and the shape-deleted handler.  Asynchronous fetches are
modelled by outcome parameters (the server response) and by a log of the
HTTP requests each operation issues.  JavaScript numbers are modelled as
rationals, JS truthiness checks and `x || y` defaults are modelled
explicitly, and `Number.prototype.toFixed` is modelled per the ECMAScript
specification (round to nearest, ties away from zero on the magnitude).
-/

set_option maxRecDepth 100000

/-- The seven fixed layer identifiers (`validLayers` in `app.js`). -/
inductive Layer
  | forest
  | wetland
  | tundra
  | grassland
  | algal_blooms
  | soil
  | chlorophyll
deriving DecidableEq, Repr

/-- The enumeration order used by every per-layer loop in `app.js`. -/
def validLayers : List Layer :=
  [.forest, .wetland, .tundra, .grassland, .algal_blooms, .soil, .chlorophyll]

/-- Wire/DOM name of a layer (`layerType` strings in `app.js`). -/
def layerName : Layer → String
  | .forest => "forest"
  | .wetland => "wetland"
  | .tundra => "tundra"
  | .grassland => "grassland"
  | .algal_blooms => "algal_blooms"
  | .soil => "soil"
  | .chlorophyll => "chlorophyll"

/-- The rational `n / 1` (used for integer literals of the JS code). -/
def qnat (n : Nat) : ℚ := mkRat n 1

/-- Exact model of JS `+` on numbers (computed on the `num`/`den`
representation so that concrete values evaluate by `decide`). -/
def qAdd (a b : ℚ) : ℚ := mkRat (a.num * b.den + b.num * a.den) (a.den * b.den)

/-- Exact model of JS `-` on numbers. -/
def qSub (a b : ℚ) : ℚ := mkRat (a.num * b.den - b.num * a.den) (a.den * b.den)

/-- Exact model of JS `*` on numbers. -/
def qMul (a b : ℚ) : ℚ := mkRat (a.num * b.num) (a.den * b.den)

/-- Exact model of JS `/` on numbers (division by zero yields `0` here; in
the source every division is guarded by a truthiness check on the divisor). -/
def qDiv (a b : ℚ) : ℚ :=
  mkRat (if 0 ≤ b.num then a.num * b.den else -(a.num * b.den)) (a.den * b.num.natAbs)

/-- JS truthiness of an optional number (`undefined` and `0` are falsy). -/
def truthyQ : Option ℚ → Bool
  | none => false
  | some q => decide (q ≠ 0)

/-- JS truthiness of an optional string (`undefined` and `""` are falsy). -/
def truthyStr : Option String → Bool
  | none => false
  | some s => decide (s ≠ "")

/-- JS truthiness of an optional natural number (years; `0` is falsy). -/
def truthyNat : Option Nat → Bool
  | none => false
  | some n => decide (n ≠ 0)

/-- JS `v || fallback` for an optional string field (e.g. `errorData.detail ||
"HTTP 500"`): the fallback is used when the field is absent or empty. -/
def jsOrOpt (v : Option String) (fallback : String) : String :=
  match v with
  | some s => if s = "" then fallback else s
  | none => fallback

/-- JS `v || fallback` for a string-valued DOM input (empty string is falsy). -/
def jsOrStr (v fallback : String) : String :=
  if v = "" then fallback else v

/-- JS `(a || b)` on two optional numbers (`data.roi_area_km2 || data.area_km2`). -/
def jsOrQ (a b : Option ℚ) : ℚ :=
  if truthyQ a then a.getD 0 else b.getD 0

/-- Left-pad a string with zeros to the given length. -/
def padZeros (s : String) (n : Nat) : String :=
  if n ≤ s.length then s
  else String.mk (List.replicate (n - s.length) (Char.ofNat 48)) ++ s

/-- Render the natural number `m` as a decimal with `f` fractional digits,
reading `m` as a fixed-point value scaled by `10 ^ f`. -/
def natDecimals (m : Nat) (f : Nat) : String :=
  if f = 0 then Nat.repr m
  else Nat.repr (m / 10 ^ f) ++ "." ++ padZeros (Nat.repr (m % 10 ^ f)) f

/-- `⌊x + 1/2⌋` computed on the numerator/denominator representation, i.e.
rounding to the nearest integer with ties going up. -/
def floorHalfUp (x : ℚ) : ℤ :=
  Int.fdiv (2 * x.num + (x.den : ℤ)) (2 * (x.den : ℤ))

/-- `toFixed` on a nonnegative rational: the ECMAScript conversion picks the
integer `n` with `n / 10 ^ f` closest to `x`, ties going to the larger `n`. -/
def jsToFixedNN (x : ℚ) (f : Nat) : String :=
  natDecimals (floorHalfUp (qMul x (qnat (10 ^ f)))).toNat f

/-- Negation on the `num`/`den` representation. -/
def qNeg (a : ℚ) : ℚ := mkRat (-a.num) a.den

/-- Model of JS `Number.prototype.toFixed` (negative numbers are rendered as
the sign followed by the conversion of the magnitude). -/
def jsToFixed (x : ℚ) (f : Nat) : String :=
  if x.num < 0 then "-" ++ jsToFixedNN (qNeg x) f else jsToFixedNN x f

/-- Substring test on strings (used to state that a status message or a
rendered statistics panel contains a given fragment). -/
def strContainsSub (hay needle : String) : Bool :=
  (List.range (hay.data.length + 1)).any (fun i => needle.data.isPrefixOf (hay.data.drop i))

/-- JS `Boolean.prototype.toString`. -/
def boolToStr (b : Bool) : String := if b then "true" else "false"

/-- `data.change_over_time` in the wetland statistics record.  The
`wetland_area_ha` array is modelled as its two accessed entries. -/
structure ChangeOverTime where
  start_year : Option Nat
  end_year : Option Nat
  wetland_area_ha : Option (ℚ × ℚ)

/-- `data.biomass_carbon` in the wetland statistics record. -/
structure BiomassCarbon where
  aboveground_biomass_Mg_per_ha : Option ℚ
  total_carbon_stock_MgC : Option ℚ
  co2_equivalent_MgCO2e : Option ℚ

/-- The wetland statistics record consumed by `displayWetlandStatistics`. -/
structure WetlandStats where
  roi_area_km2 : Option ℚ
  area_km2 : Option ℚ
  roi_area_ha : Option ℚ
  mean_ndwi : Option ℚ
  mean_mndwi : Option ℚ
  wetland_class : Option String
  water_frequency_index : Option ℚ
  change_over_time : Option ChangeOverTime
  biomass_carbon : Option BiomassCarbon

/-- One `stat-item` row as built throughout `apis_statistics.js`. -/
def statItem (label value : String) : String :=
  "<div class=\"stat-item\"><span class=\"stat-label\">" ++ label ++
    "</span><span class=\"stat-value\">" ++ value ++ "</span></div>"

/-- One `stat-section-header` line. -/
def statHeader (title : String) : String :=
  "<div class=\"stat-section-header\">" ++ title ++ "</div>"

/-- The change-over-time row of `displayWetlandStatistics`: start and end
areas, the difference, and `((changeHa / startArea) * 100).toFixed(1)`. -/
def wetlandChangeRow (startYear endYear : Nat) (startArea endArea : ℚ) : String :=
  statItem "Wetland Area (ha):"
    (jsToFixed startArea 2 ++ " ha (" ++ Nat.repr startYear ++ ") → " ++
     jsToFixed endArea 2 ++ " ha (" ++ Nat.repr endYear ++ ") → " ++
     jsToFixed (qSub endArea startArea) 2 ++ " ha (" ++
     jsToFixed (qMul (qDiv (qSub endArea startArea) startArea) (qnat 100)) 1 ++ "%)")

/-- The `!data || Object.keys(data).length === 0` guard of
`displayWetlandStatistics`: the record models the JS object, whose keys are
exactly the present fields. -/
def WetlandStats.isEmptyObj (d : WetlandStats) : Bool :=
  d.roi_area_km2.isNone && d.area_km2.isNone && d.roi_area_ha.isNone &&
  d.mean_ndwi.isNone && d.mean_mndwi.isNone && d.wetland_class.isNone &&
  d.water_frequency_index.isNone && d.change_over_time.isNone && d.biomass_carbon.isNone

/-- `StatisticsManager.displayWetlandStatistics`, as the string assigned to
`wetlandStatsContent`. -/
def displayWetlandStatistics (data : WetlandStats) : String :=
  if data.isEmptyObj then "<div class=\"stat-item\">No statistics data available</div>" else
  let c := statHeader "🌊 Wetland Overview"
  let c := if truthyQ data.roi_area_km2 || truthyQ data.area_km2 then
      c ++ statItem "ROI Area (km²):" (jsToFixed (jsOrQ data.roi_area_km2 data.area_km2) 2 ++ " km²")
    else c
  let c := if truthyQ data.roi_area_ha then
      c ++ statItem "ROI Area (ha):" (jsToFixed (data.roi_area_ha.getD 0) 2 ++ " ha")
    else c
  let c := if truthyQ data.mean_ndwi then
      c ++ statItem "Mean NDWI:" (jsToFixed (data.mean_ndwi.getD 0) 3)
    else c
  let c := if truthyQ data.mean_mndwi then
      c ++ statItem "Mean MNDWI:" (jsToFixed (data.mean_mndwi.getD 0) 3)
    else c
  let c := if truthyStr data.wetland_class then
      c ++ statItem "Wetland Class:" (data.wetland_class.getD "")
    else c
  let c := if truthyQ data.water_frequency_index then
      c ++ statItem "Water Frequency Index:"
        (jsToFixed (data.water_frequency_index.getD 0) 2 ++ " (" ++
         jsToFixed (qMul (data.water_frequency_index.getD 0) (qnat 100)) 0 ++ "% waterlogged)")
    else c
  let c := match data.change_over_time with
    | none => c
    | some cd =>
        let c := c ++ statHeader "📈 Wetland Change Over Time"
        if truthyNat cd.start_year && truthyNat cd.end_year && cd.wetland_area_ha.isSome then
          c ++ wetlandChangeRow (cd.start_year.getD 0) (cd.end_year.getD 0)
            (cd.wetland_area_ha.getD (0, 0)).1 (cd.wetland_area_ha.getD (0, 0)).2
        else c
  let c := match data.biomass_carbon with
    | none => c
    | some bc =>
        let c := c ++ statHeader "🪵 Biomass & Carbon Sequestration"
        let c := match bc.aboveground_biomass_Mg_per_ha with
          | none => c
          | some v => c ++ statItem "Aboveground Biomass:" (jsToFixed v 2 ++ " Mg/ha")
        let c := match bc.total_carbon_stock_MgC with
          | none => c
          | some v => c ++ statItem "Total Carbon Stock (MgC):" (jsToFixed v 2 ++ " MgC")
        match bc.co2_equivalent_MgCO2e with
          | none => c
          | some v => c ++ statItem "CO₂ Equivalent:" (jsToFixed v 2 ++ " MgCO₂e")
  c

/-- `data.biomass_partitioning` in the forest statistics record. -/
structure BiomassPartitioning where
  aboveground_biomass_Mg_per_ha : Option ℚ
  belowground_biomass_Mg_per_ha : Option ℚ
  total_biomass_Mg_per_ha : Option ℚ

/-- `data.biomass_estimation` in the forest statistics record. -/
structure BiomassEstimation where
  average_biomass_Mg_per_ha : Option ℚ
  total_biomass_Mg : Option ℚ

/-- `data.carbon_stock_estimation` in the forest statistics record. -/
structure CarbonStockEstimation where
  conversion_factor : Option ℚ
  average_carbon_stock_MgC_per_ha : Option ℚ
  total_carbon_stock_MgC : Option ℚ

/-- `data.co2_equivalent_estimation` in the forest statistics record. -/
structure Co2EquivalentEstimation where
  conversion_factor : Option ℚ
  total_co2_eq_Mg : Option ℚ

/-- The forest statistics record consumed by `displayForestStatistics`. -/
structure ForestStats where
  roi_area_km2 : Option ℚ
  roi_area_ha : Option ℚ
  mean_NDVI : Option ℚ
  mean_NBR : Option ℚ
  forest_classification : Option String
  biomass_partitioning : Option BiomassPartitioning
  biomass_estimation : Option BiomassEstimation
  carbon_stock_estimation : Option CarbonStockEstimation
  co2_equivalent_estimation : Option Co2EquivalentEstimation

/-- The `!data || Object.keys(data).length === 0` guard of
`displayForestStatistics`. -/
def ForestStats.isEmptyObj (d : ForestStats) : Bool :=
  d.roi_area_km2.isNone && d.roi_area_ha.isNone && d.mean_NDVI.isNone &&
  d.mean_NBR.isNone && d.forest_classification.isNone && d.biomass_partitioning.isNone &&
  d.biomass_estimation.isNone && d.carbon_stock_estimation.isNone &&
  d.co2_equivalent_estimation.isNone

/-- `StatisticsManager.displayForestStatistics`, as the string assigned to
`forestStatsContent`.  Top-level numeric fields are guarded by JS
truthiness; the nested sub-fields are guarded by `!== undefined`. -/
def displayForestStatistics (data : ForestStats) : String :=
  if data.isEmptyObj then "<div class=\"stat-item\">No statistics data available</div>" else
  let c := statHeader "🌲 Forest Analysis"
  let c := if truthyQ data.roi_area_km2 then
      c ++ statItem "ROI Area (km²):" (jsToFixed (data.roi_area_km2.getD 0) 2 ++ " km²")
    else c
  let c := if truthyQ data.roi_area_ha then
      c ++ statItem "ROI Area (ha):" (jsToFixed (data.roi_area_ha.getD 0) 2 ++ " ha")
    else c
  let c := if truthyQ data.mean_NDVI then
      c ++ statItem "Mean NDVI:" (jsToFixed (data.mean_NDVI.getD 0) 4)
    else c
  let c := if truthyQ data.mean_NBR then
      c ++ statItem "Mean NBR:" (jsToFixed (data.mean_NBR.getD 0) 4)
    else c
  let c := if truthyStr data.forest_classification then
      c ++ statItem "Forest Classification:" (data.forest_classification.getD "")
    else c
  let c := match data.biomass_partitioning with
    | none => c
    | some bp =>
        let c := c ++ statHeader "📏 Biomass Partitioning"
        let c := match bp.aboveground_biomass_Mg_per_ha with
          | none => c
          | some v => c ++ statItem "Aboveground Biomass:" (jsToFixed v 2 ++ " Mg/ha")
        let c := match bp.belowground_biomass_Mg_per_ha with
          | none => c
          | some v => c ++ statItem "Belowground Biomass:" (jsToFixed v 2 ++ " Mg/ha")
        match bp.total_biomass_Mg_per_ha with
          | none => c
          | some v => c ++ statItem "Total Biomass per Hectare:" (jsToFixed v 2 ++ " Mg/ha")
  let c := match data.biomass_estimation with
    | none => c
    | some be =>
        let c := c ++ statHeader "🌱 Biomass Estimation"
        let c := match be.average_biomass_Mg_per_ha with
          | none => c
          | some v => c ++ statItem "Average Biomass per Hectare:" (jsToFixed v 2 ++ " Mg/ha")
        match be.total_biomass_Mg with
          | none => c
          | some v => c ++ statItem "Total Biomass:" (jsToFixed v 2 ++ " Mg")
  let c := match data.carbon_stock_estimation with
    | none => c
    | some cs =>
        let c := c ++ statHeader "🌍 Carbon Stock"
        let c := match cs.conversion_factor with
          | none => c
          | some v => c ++ statItem "Conversion Factor:" (jsToFixed v 2)
        let c := match cs.average_carbon_stock_MgC_per_ha with
          | none => c
          | some v => c ++ statItem "Average Carbon Stock per Hectare:" (jsToFixed v 2 ++ " MgC/ha")
        match cs.total_carbon_stock_MgC with
          | none => c
          | some v => c ++ statItem "Total Carbon Stock:" (jsToFixed v 2 ++ " MgC")
  let c := match data.co2_equivalent_estimation with
    | none => c
    | some ce =>
        let c := c ++ statHeader "☁️ CO₂ Equivalent"
        let c := match ce.conversion_factor with
          | none => c
          | some v => c ++ statItem "Conversion Factor:" (jsToFixed v 2)
        match ce.total_co2_eq_Mg with
          | none => c
          | some v => c ++ statItem "Total CO₂ Equivalent:" (jsToFixed v 2 ++ " Mg")
  c

/-- `data.classification_by_area_ha` in the algal-blooms statistics record. -/
structure AlgalClassAreas where
  no_bloom_ha : Option ℚ
  low_bloom_ha : Option ℚ
  moderate_bloom_ha : Option ℚ
  severe_bloom_ha : Option ℚ

/-- `data.water_quality_indicators` in the algal-blooms statistics record. -/
structure WaterQualityIndicators where
  chlorophyll_indicator : Option String
  turbidity_level : Option String

/-- The algal-blooms statistics record consumed by
`displayAlgalBloomsStatistics`. -/
structure AlgalStats where
  roi_area_sq_km : Option ℚ
  mean_ndci : Option ℚ
  bloom_detected : Option Bool
  severity_level : Option String
  bloom_extent_sq_km : Option ℚ
  classification_by_area_ha : Option AlgalClassAreas
  water_quality_indicators : Option WaterQualityIndicators

/-- `StatisticsManager.displayAlgalBloomsStatistics`, as the string assigned
to `algalBloomsStatsContent`. -/
def displayAlgalBloomsStatistics (data : AlgalStats) : String :=
  let c := statHeader "🌊 Algal Blooms Analysis"
  let c := if truthyQ data.roi_area_sq_km then
      c ++ statItem "ROI Area:" (jsToFixed (data.roi_area_sq_km.getD 0) 2 ++ " km²")
    else c
  let c := if truthyQ data.mean_ndci then
      c ++ statItem "Mean NDCI:" (jsToFixed (data.mean_ndci.getD 0) 2)
    else c
  let c := match data.bloom_detected with
    | none => c
    | some b => c ++ statItem "Bloom Detected:" (boolToStr b)
  let c := if truthyStr data.severity_level then
      c ++ statItem "Severity Level:" (data.severity_level.getD "")
    else c
  let c := if truthyQ data.bloom_extent_sq_km then
      c ++ statItem "Bloom Extent:" (jsToFixed (data.bloom_extent_sq_km.getD 0) 2 ++ " km²")
    else c
  let c := match data.classification_by_area_ha with
    | none => c
    | some cl =>
        let c := c ++ statHeader "📊 Classification by Area"
        let c := match cl.no_bloom_ha with
          | none => c
          | some v => c ++ statItem "No Bloom:" (jsToFixed v 2 ++ " ha")
        let c := match cl.low_bloom_ha with
          | none => c
          | some v => c ++ statItem "Low Bloom:" (jsToFixed v 2 ++ " ha")
        let c := match cl.moderate_bloom_ha with
          | none => c
          | some v => c ++ statItem "Moderate Bloom:" (jsToFixed v 2 ++ " ha")
        match cl.severe_bloom_ha with
          | none => c
          | some v => c ++ statItem "Severe Bloom:" (jsToFixed v 2 ++ " ha")
  let c := match data.water_quality_indicators with
    | none => c
    | some wq =>
        let c := c ++ statHeader "💧 Water Quality Indicators"
        let c := if truthyStr wq.chlorophyll_indicator then
            c ++ statItem "Chlorophyll Indicator:" (wq.chlorophyll_indicator.getD "")
          else c
        if truthyStr wq.turbidity_level then
          c ++ statItem "Turbidity Level:" (wq.turbidity_level.getD "")
        else c
  c

/-- The HTTP requests the frontend can issue (§6 of the design). -/
inductive Request
  | roiReq (startDate endDate : String) (resolution : Nat)
  | analyzeReq (l : Layer) (startDate endDate : String) (resolution : Nat)
  | mapUrlReq (l : Layer)
  | legendReq (l : Layer)
  | statsReq (l : Layer)
deriving DecidableEq, Repr

/-- Server response to `POST /api/setup-roi` as observed by `setupROI`:
2xx with `status:"success"` and an area; 2xx with a non-success status and
optional `detail`; a non-2xx response with the parsed body detail (an
unparseable body is `some "Unknown error"`, the `.catch` default); or a
thrown network exception. -/
inductive RoiOutcome
  | ok (area_km2 : ℚ)
  | appFail (detail : Option String)
  | httpFail (status : Nat) (detail : Option String)
  | exn (msg : String)

/-- Server response to `POST /api/analyze-layer` as observed by
`analyzeLayer` (same four shapes as `RoiOutcome`). -/
inductive AnalyzeOutcome
  | ok
  | appFail (detail : Option String)
  | httpFail (status : Nat) (detail : Option String)
  | exn (msg : String)

/-- Joint outcome of the two fetches of `loadLayerData`: whether the
map-url response was 2xx with a trusted `tile_url`, whether the legend
response was 2xx with truthy data, and whether the fetched legend object
contains the per-layer `*_classification` key. -/
structure LoadOutcome where
  tileOk : Bool
  legendOk : Bool
  legendHasKey : Bool

/-- Outcome of a `GET /api/{layer}/statistics` fetch as observed by
`StatisticsManager.loadStatistics`: nonempty data (carrying the rendering
the per-layer display routine produces for it), empty data, or a failure
(non-2xx or thrown). -/
inductive StatsOutcome
  | okData (content : String)
  | okEmpty
  | fail

/-- Pointwise update of a per-layer map (a DOM/state write for one layer). -/
def upd {α : Type} (f : Layer → α) (L : Layer) (v : α) : Layer → α :=
  fun l => if l = L then v else f l

/-- The client-side state of the dashboard: the module-level variables of
`app.js` together with the DOM state the code reads back (checkbox
`checked`/`disabled`, CSS classes, status texts). -/
structure DashState where
  /-- `roiSetup` -/
  roiSetup : Bool
  /-- `layersAnalyzed` -/
  layersAnalyzed : Layer → Bool
  /-- `checked` of each layer's toggle checkbox -/
  toggleChecked : Layer → Bool
  /-- `disabled` of each layer's toggle checkbox -/
  toggleDisabled : Layer → Bool
  /-- `currentActiveLayer` -/
  currentActiveLayer : Layer
  /-- `analysisLayers[l]` is present (a tile overlay is cached) -/
  overlayCached : Layer → Bool
  /-- the cached overlay is currently attached to the map -/
  overlayOnMap : Layer → Bool
  /-- `legendData[l]`: `none` if absent, otherwise whether the object has
  the per-layer `*_classification` key -/
  legendCached : Layer → Option Bool
  /-- text of each `.layer-status` element -/
  layerStatus : Layer → String
  /-- `active` class on each `.layer-item` -/
  itemActive : Layer → Bool
  /-- `analyzing` class on each `.layer-item` -/
  itemAnalyzing : Layer → Bool
  /-- `active` class on each `.statistics-panel` -/
  statsPanelActive : Layer → Bool
  /-- innerHTML of each `{l}StatsContent` element -/
  statsContent : Layer → String
  /-- whether `#mapLegend` is displayed -/
  mapLegendVisible : Bool
  /-- which layer's legend was last rendered into `#mapLegend` -/
  legendShownFor : Option Layer
  /-- message in `#statusContainer` -/
  statusMsg : String
  /-- CSS kind of the status message -/
  statusType : String
  /-- innerHTML of `#coordinatesDisplay` -/
  coordsDisplay : String
  /-- value of the `#startDate` input (empty string when unset) -/
  startDateVal : String
  /-- value of the `#endDate` input (empty string when unset) -/
  endDateVal : String
  /-- value of `#resolutionSelect` (`none` models the empty string) -/
  resolutionVal : Option Nat
  /-- `currentPolygon !== null` -/
  hasPolygon : Bool

/-- `showStatus(message, type)`: renders the single transient status
message, whitelisting the CSS kind. -/
def showStatus (s : DashState) (message ty : String) : DashState :=
  { s with statusMsg := message,
           statusType := if ["success", "error", "loading", "warning"].contains ty then ty else "loading" }

/-- `updateLayerStatus(layerType, status)`. -/
def updateLayerStatus (s : DashState) (L : Layer) (status : String) : DashState :=
  { s with layerStatus := upd s.layerStatus L status }

/-- `StatisticsManager.loadStatistics(layerType, layersAnalyzed)`: fetches
`/api/{layer}/statistics` when the layer is analyzed and renders the result
into the layer's panel. -/
def loadStatistics (s : DashState) (L : Layer) (st : StatsOutcome) : DashState × List Request :=
  if s.layersAnalyzed L then
    match st with
    | .okData content =>
        ({ s with statsContent := upd s.statsContent L content }, [.statsReq L])
    | .okEmpty =>
        let s := { s with statsContent := upd s.statsContent L "<div class=\"stat-item\">No statistics available</div>" }
        (showStatus s ("⚠️ No statistics available for " ++ layerName L) "warning", [.statsReq L])
    | .fail =>
        let s := { s with statsContent := upd s.statsContent L "<div class=\"stat-item\">Error loading data</div>" }
        (showStatus s ("⚠️ Could not load " ++ layerName L ++ " statistics") "error", [.statsReq L])
  else (s, [])

/-- `setActiveLayer(layerType)`: clears the `active` class from every
statistics panel, marks the layer's panel active and loads its statistics
when the layer is analyzed, and records it as `currentActiveLayer`. -/
def setActiveLayer (s : DashState) (L : Layer) (st : StatsOutcome) : DashState × List Request :=
  let s := { s with statsPanelActive := fun _ => false }
  if s.layersAnalyzed L then
    let s := { s with statsPanelActive := upd s.statsPanelActive L true }
    let (s, reqs) := loadStatistics s L st
    ({ s with currentActiveLayer := L }, reqs)
  else
    ({ s with currentActiveLayer := L }, [])

/-- `showMapLegend(legendInfo)` invoked with the legend cached for `L`. -/
def showMapLegendFor (s : DashState) (L : Layer) : DashState :=
  { s with mapLegendVisible := true, legendShownFor := some L }

/-- The scan in the hide-branch of `updateLayerVisibility`: the loop over
`validLayers` keeps overwriting `lastVisibleLayer`, so it yields the last
layer (in enumeration order) whose toggle is checked and which is
analyzed. -/
def lastVisibleAnalyzed (s : DashState) : Option Layer :=
  validLayers.foldl (fun acc l => if s.toggleChecked l && s.layersAnalyzed l then some l else acc) none

/-- `updateLayerVisibility(layerType, isVisible)`. -/
def updateLayerVisibility (s : DashState) (L : Layer) (isVisible : Bool) (st : StatsOutcome) :
    DashState × List Request :=
  let s := { s with overlayOnMap := upd s.overlayOnMap L false }
  let s := { s with itemActive := upd s.itemActive L false }
  let (s, reqs) :=
    if isVisible && s.overlayCached L && s.layersAnalyzed L then
      let s := { s with overlayOnMap := upd s.overlayOnMap L true,
                        itemActive := upd s.itemActive L true }
      let s := match s.legendCached L with
        | some true => showMapLegendFor s L
        | _ => s
      setActiveLayer s L st
    else
      match lastVisibleAnalyzed s with
      | some M =>
          let s := match s.legendCached M with
            | some true => showMapLegendFor s M
            | some false => { s with mapLegendVisible := false }
            | none => s
          let s := { s with itemActive := upd s.itemActive M true }
          setActiveLayer s M st
      | none =>
          ({ s with mapLegendVisible := false, statsPanelActive := fun _ => false }, [])
  let s := if s.layersAnalyzed Layer.forest
    then { s with toggleDisabled := upd s.toggleDisabled Layer.forest false } else s
  (s, reqs)

/-- `loadLayerData(layerType)`: fetches the tile URL and the legend; each
sub-fetch caches its result only on success and merely logs failures. -/
def loadLayerData (s : DashState) (L : Layer) (ld : LoadOutcome) : DashState × List Request :=
  let s := if ld.tileOk then { s with overlayCached := upd s.overlayCached L true } else s
  let s := if ld.legendOk then { s with legendCached := upd s.legendCached L (some ld.legendHasKey) } else s
  (s, [.mapUrlReq L, .legendReq L])

/-- The per-layer default resolutions (`defaultResolution` in
`analyzeLayer`). -/
def defaultResolution : Layer → Nat
  | .forest => 10
  | .wetland => 10
  | .tundra => 250
  | .grassland => 10
  | .algal_blooms => 300
  | .soil => 500
  | .chlorophyll => 4638

/-- `analyzeLayer(layerType, isReanalysis)`. -/
def analyzeLayer (s : DashState) (L : Layer) (isRe : Bool)
    (o : AnalyzeOutcome) (ld : LoadOutcome) (st : StatsOutcome) : DashState × List Request :=
  if !s.roiSetup then
    (showStatus s "Please draw a ROI first!" "error", [])
  else if s.layersAnalyzed L && !isRe then
    if s.toggleChecked L then updateLayerVisibility s L true st else (s, [])
  else
    let s := updateLayerStatus s L (if isRe then "Re-analyzing..." else "Analyzing...")
    let s := { s with itemAnalyzing := upd s.itemAnalyzing L true }
    let s := showStatus s ((if isRe then "🔄 Re-analyzing " else "🔄 Analyzing ") ++ layerName L ++ " layer...") "loading"
    let sd := jsOrStr s.startDateVal "2021-01-01"
    let ed := jsOrStr s.endDateVal "2023-01-01"
    let res := s.resolutionVal.getD (defaultResolution L)
    let req := Request.analyzeReq L sd ed res
    match o with
    | .ok =>
        let s := { s with layersAnalyzed := upd s.layersAnalyzed L true }
        let s := showStatus s (layerName L ++ (if isRe then " re-analysis completed!" else " analysis completed!")) "success"
        let (s, loadReqs) := loadLayerData s L ld
        let s := updateLayerStatus s L "Analyzed"
        let s := { s with itemAnalyzing := upd s.itemAnalyzing L false,
                          itemActive := upd s.itemActive L true }
        if s.toggleChecked L then
          let (s, vReqs) := updateLayerVisibility s L true st
          let (s, aReqs) := setActiveLayer s L st
          (s, req :: (loadReqs ++ vReqs ++ aReqs))
        else
          (s, req :: loadReqs)
    | .appFail d =>
        let s := showStatus s (layerName L ++ " analysis failed: " ++ jsOrOpt d "Unknown error") "error"
        let s := updateLayerStatus s L "Failed - Click toggle to retry"
        let s := { s with itemAnalyzing := upd s.itemAnalyzing L false }
        let s := if !isRe then { s with toggleChecked := upd s.toggleChecked L false } else s
        (s, [req])
    | .httpFail status d =>
        let s := showStatus s ("Error analyzing " ++ layerName L ++ ": " ++ jsOrOpt d ("HTTP " ++ Nat.repr status)) "error"
        let s := updateLayerStatus s L "Error - Click toggle to retry"
        let s := { s with itemAnalyzing := upd s.itemAnalyzing L false }
        let s := if !isRe then { s with toggleChecked := upd s.toggleChecked L false } else s
        (s, [req])
    | .exn m =>
        let s := showStatus s ("Error analyzing " ++ layerName L ++ ": " ++ m) "error"
        let s := updateLayerStatus s L "Error - Click toggle to retry"
        let s := { s with itemAnalyzing := upd s.itemAnalyzing L false }
        let s := if !isRe then { s with toggleChecked := upd s.toggleChecked L false } else s
        (s, [req])

/-- `enableAllLayerToggles()`: the loop runs over all seven layers, so the
per-layer maps become the stated constants. -/
def enableAllLayerToggles (s : DashState) : DashState :=
  { s with toggleDisabled := fun _ => false,
           toggleChecked := fun l => decide (l = Layer.forest),
           layerStatus := fun l =>
             if l = Layer.forest then "Analyzed" else "Click toggle to analyze" }

/-- `resetLayerStates()`: the loop disables and unchecks every toggle,
resets every status and strips the item classes; afterwards forest's status
and `active` class are restored. -/
def resetLayerStates (s : DashState) : DashState :=
  { s with layersAnalyzed := fun _ => false,
           toggleDisabled := fun _ => true,
           toggleChecked := fun _ => false,
           layerStatus := fun l =>
             if l = Layer.forest then "Ready (Default)" else "Draw ROI to enable",
           itemActive := fun l => decide (l = Layer.forest),
           itemAnalyzing := fun _ => false }

/-- `setupROI()`. -/
def setupROI (s : DashState) (o : RoiOutcome) (ld : LoadOutcome) (st : StatsOutcome) :
    DashState × List Request :=
  if !s.hasPolygon then (s, [])
  else
    let s := showStatus s "🔄 Setting up ROI and analyzing forest layer..." "loading"
    let sd := jsOrStr s.startDateVal "2021-01-01"
    let ed := jsOrStr s.endDateVal "2023-01-01"
    let res := s.resolutionVal.getD 10
    let req := Request.roiReq sd ed res
    match o with
    | .ok area =>
        let s := { s with roiSetup := true,
                          layersAnalyzed := fun l => decide (l = Layer.forest) }
        let s := showStatus s ("ROI setup complete! Forest analysis ready. Area: " ++ jsToFixed area 2 ++ " km²") "success"
        let s := enableAllLayerToggles s
        let (s, loadReqs) := loadLayerData s Layer.forest ld
        let (s, vReqs) := updateLayerVisibility s Layer.forest true st
        let s := updateLayerStatus s Layer.forest "Analyzed"
        let s := { s with toggleChecked := upd s.toggleChecked Layer.forest true,
                          toggleDisabled := upd s.toggleDisabled Layer.forest false }
        (s, req :: (loadReqs ++ vReqs))
    | .appFail d =>
        let s := showStatus s ("ROI setup failed: " ++ jsOrOpt d "Unknown error") "error"
        let s := { s with roiSetup := false }
        (resetLayerStates s, [req])
    | .httpFail status d =>
        let s := showStatus s ("Error: " ++ jsOrOpt d ("HTTP " ++ Nat.repr status)) "error"
        let s := { s with roiSetup := false }
        (resetLayerStates s, [req])
    | .exn m =>
        let s := showStatus s ("Error: " ++ m) "error"
        let s := { s with roiSetup := false }
        (resetLayerStates s, [req])

/-- `clearAllLayers()`: detaches every cached overlay from the map, hides
the legend, clears the `active` statistics panels and the status line. -/
def clearAllLayers (s : DashState) : DashState :=
  { s with overlayOnMap := fun _ => false,
           mapLegendVisible := false,
           statsPanelActive := fun _ => false,
           statusMsg := "",
           statusType := "" }

/-- The `L.Draw.Event.DELETED` handler in `initMap`. -/
def shapeDeleted (s : DashState) : DashState :=
  let s := { s with hasPolygon := false, roiSetup := false }
  let s := clearAllLayers s
  let s := resetLayerStates s
  { s with coordsDisplay := "Draw a polygon on the map to see coordinates here..." }

/-- The `change` handler of a layer's toggle when it becomes checked (the
DOM updates `checked` before the handler runs).  The forest handler only
re-applies visibility; every other layer's handler analyzes on first use
and re-applies visibility afterwards. -/
def toggleOn (s : DashState) (L : Layer) (o : AnalyzeOutcome) (ld : LoadOutcome) (st : StatsOutcome) :
    DashState × List Request :=
  let s := { s with toggleChecked := upd s.toggleChecked L true }
  match L with
  | .forest =>
      if s.layersAnalyzed Layer.forest then updateLayerVisibility s Layer.forest true st else (s, [])
  | _ =>
      if !s.layersAnalyzed L then analyzeLayer s L false o ld st
      else updateLayerVisibility s L true st

/-- The `change` handler of a layer's toggle when it becomes unchecked. -/
def toggleOff (s : DashState) (L : Layer) (st : StatsOutcome) : DashState × List Request :=
  let s := { s with toggleChecked := upd s.toggleChecked L false }
  updateLayerVisibility s L false st

/-- The layers `handleDateChange`/`handleResolutionChange` re-analyze:
analyzed and currently checked, in enumeration order. -/
def layersToReanalyze (s : DashState) : List Layer :=
  validLayers.filter (fun l => s.layersAnalyzed l && s.toggleChecked l)

/-- The synchronous part of `handleDateChange` (the staggered
`analyzeLayer(l, true)` calls fire later and are separate steps). -/
def handleDateChangeSync (s : DashState) : DashState :=
  if !s.roiSetup then s
  else if layersToReanalyze s = [] then s
  else
    let s := showStatus s ("🔄 Date range changed to " ++ s.startDateVal ++ " - " ++ s.endDateVal ++ ". Re-analyzing active layers...") "loading"
    (layersToReanalyze s).foldl (fun s l => updateLayerStatus s l "Re-analyzing with new dates...") s

/-- The state of `app.js` after `initializeApp()` ran on page load: the
module-level initial values, the default parameter inputs, and
`resetLayerStates()` followed by the loaded status message. -/
def initState : DashState :=
  { roiSetup := false
    layersAnalyzed := fun _ => false
    toggleChecked := fun _ => false
    toggleDisabled := fun _ => true
    currentActiveLayer := Layer.forest
    overlayCached := fun _ => false
    overlayOnMap := fun _ => false
    legendCached := fun _ => none
    layerStatus := fun l => if l = Layer.forest then "Ready (Default)" else "Draw ROI to enable"
    itemActive := fun l => decide (l = Layer.forest)
    itemAnalyzing := fun _ => false
    statsPanelActive := fun _ => false
    statsContent := fun _ => ""
    mapLegendVisible := false
    legendShownFor := none
    statusMsg := "🌍 Environmental Analysis Dashboard loaded. Draw a polygon to begin analysis."
    statusType := "success"
    coordsDisplay := ""
    startDateVal := "2021-01-01"
    endDateVal := "2023-01-01"
    resolutionVal := some 10
    hasPolygon := false }

/-- States the dashboard can reach from page load through the user/server
events the code handles. -/
inductive Reachable : DashState → Prop
  | init : Reachable initState
  | draw (s : DashState) (c : String) (o : RoiOutcome) (ld : LoadOutcome) (st : StatsOutcome) :
      Reachable s → Reachable (setupROI { s with hasPolygon := true, coordsDisplay := c } o ld st).1
  | analyze (s : DashState) (L : Layer) (isRe : Bool) (o : AnalyzeOutcome) (ld : LoadOutcome) (st : StatsOutcome) :
      Reachable s → Reachable (analyzeLayer s L isRe o ld st).1
  | togOn (s : DashState) (L : Layer) (o : AnalyzeOutcome) (ld : LoadOutcome) (st : StatsOutcome) :
      Reachable s → Reachable (toggleOn s L o ld st).1
  | togOff (s : DashState) (L : Layer) (st : StatsOutcome) :
      Reachable s → Reachable (toggleOff s L st).1
  | deleted (s : DashState) : Reachable s → Reachable (shapeDeleted s)
  | dateChange (s : DashState) (d1 d2 : String) :
      Reachable s → Reachable (handleDateChangeSync { s with startDateVal := d1, endDateVal := d2 })

/-- No layer's toggle is currently checked in `s`. -/
def noLayerVisible (s : DashState) : Bool :=
  validLayers.all (fun l => !s.toggleChecked l)

/-- Whether a request is an analysis request (`POST /api/analyze-layer`). -/
def isAnalyzeReq : Request → Bool
  | .analyzeReq .. => true
  | _ => false

/-- Number of analysis requests in a request log. -/
def countAnalyzeReqs (reqs : List Request) : Nat := reqs.countP (fun r => isAnalyzeReq r)

/-- Number of analysis requests for the given layer in a request log. -/
def countAnalyzeReqsFor (L : Layer) (reqs : List Request) : Nat :=
  reqs.countP (fun r => match r with
    | .analyzeReq l _ _ _ => decide (l = L)
    | _ => false)

/-- The status message `analyzeLayer` shows on each failing outcome
(`none` for the success outcome). -/
def analyzeFailMsg (L : Layer) : AnalyzeOutcome → Option String
  | .ok => none
  | .appFail d => some (layerName L ++ " analysis failed: " ++ jsOrOpt d "Unknown error")
  | .httpFail status d =>
      some ("Error analyzing " ++ layerName L ++ ": " ++ jsOrOpt d ("HTTP " ++ Nat.repr status))
  | .exn m => some ("Error analyzing " ++ layerName L ++ ": " ++ m)

/-- The retry prompt `analyzeLayer` writes into the layer status on each
failing outcome. -/
def analyzeFailPrompt : AnalyzeOutcome → Option String
  | .ok => none
  | .appFail _ => some "Failed - Click toggle to retry"
  | .httpFail _ _ => some "Error - Click toggle to retry"
  | .exn _ => some "Error - Click toggle to retry"

/-- The status message `setupROI` shows on each failing outcome. -/
def roiFailMsg : RoiOutcome → Option String
  | .ok _ => none
  | .appFail d => some ("ROI setup failed: " ++ jsOrOpt d "Unknown error")
  | .httpFail status d => some ("Error: " ++ jsOrOpt d ("HTTP " ++ Nat.repr status))
  | .exn m => some ("Error: " ++ m)

/-- A state right after the user drew a polygon, before `setupROI` ran. -/
def sDrawn : DashState := { initState with hasPolygon := true }

/-- A session state with the ROI established and forest and wetland both
analyzed, toggled on, cached and on the map (the state after a successful
`setupROI` and a successful wetland toggle-on). -/
def sForestWetland : DashState :=
  { initState with
    roiSetup := true
    hasPolygon := true
    layersAnalyzed := fun l => decide (l = Layer.forest) || decide (l = Layer.wetland)
    toggleChecked := fun l => decide (l = Layer.forest) || decide (l = Layer.wetland)
    toggleDisabled := fun _ => false
    overlayCached := fun l => decide (l = Layer.forest) || decide (l = Layer.wetland)
    overlayOnMap := fun l => decide (l = Layer.forest) || decide (l = Layer.wetland)
    legendCached := fun l => if l = Layer.forest || l = Layer.wetland then some true else none
    currentActiveLayer := Layer.wetland }

/-- A session state in which wetland and soil have been analyzed and both
were visible, forest was toggled off earlier, and the user has just
unchecked the wetland toggle (the DOM clears `checked` before the change
handler runs). -/
def sWetlandSoil : DashState :=
  { initState with
    roiSetup := true
    hasPolygon := true
    layersAnalyzed := fun l =>
      decide (l = Layer.forest) || decide (l = Layer.wetland) || decide (l = Layer.soil)
    toggleChecked := fun l => decide (l = Layer.soil)
    toggleDisabled := fun _ => false
    overlayCached := fun l => decide (l = Layer.wetland) || decide (l = Layer.soil)
    overlayOnMap := fun l => decide (l = Layer.wetland) || decide (l = Layer.soil)
    legendCached := fun l => if l = Layer.wetland || l = Layer.soil then some true else none
    currentActiveLayer := Layer.wetland }

/-- A session state with the ROI established and the resolution select
empty, where the user has just toggled the tundra layer on. -/
def sNoResolution : DashState :=
  { initState with
    roiSetup := true
    hasPolygon := true
    resolutionVal := none
    layersAnalyzed := fun l => decide (l = Layer.forest)
    toggleChecked := fun l => decide (l = Layer.tundra)
    toggleDisabled := fun _ => false
    overlayCached := fun l => decide (l = Layer.forest)
    legendCached := fun l => if l = Layer.forest then some true else none }

/-- The wetland statistics record of the spec's example: change over time
from 100 ha (2021) to 120 ha (2023), all other fields absent. -/
def wChangeExample : WetlandStats :=
  { roi_area_km2 := none, area_km2 := none, roi_area_ha := none, mean_ndwi := none,
    mean_mndwi := none, wetland_class := none, water_frequency_index := none,
    change_over_time := some { start_year := some 2021, end_year := some 2023,
                               wetland_area_ha := some (mkRat 100 1, mkRat 120 1) },
    biomass_carbon := none }

/-- A forest statistics record with `mean_NDVI` present but equal to 0 and
a biomass-partitioning sub-record whose aboveground biomass is 0. -/
def fZeroExample : ForestStats :=
  { roi_area_km2 := none, roi_area_ha := none, mean_NDVI := some (mkRat 0 1),
    mean_NBR := none, forest_classification := none,
    biomass_partitioning := some { aboveground_biomass_Mg_per_ha := some (mkRat 0 1),
                                   belowground_biomass_Mg_per_ha := none,
                                   total_biomass_Mg_per_ha := none },
    biomass_estimation := none, carbon_stock_estimation := none,
    co2_equivalent_estimation := none }

/-- `fZeroExample` with the zero aboveground-biomass sub-field absent
instead of present-and-zero. -/
def fZeroAbsent : ForestStats :=
  { fZeroExample with
    biomass_partitioning := some { aboveground_biomass_Mg_per_ha := none,
                                   belowground_biomass_Mg_per_ha := none,
                                   total_biomass_Mg_per_ha := none } }

theorem upd_self {α : Type} (f : Layer → α) (L : Layer) (v : α) : upd f L v L = v := by
  simp [upd]

theorem loadStatistics_no_analyze (s : DashState) (L : Layer) (st : StatsOutcome) :
    countAnalyzeReqs (loadStatistics s L st).2 = 0 := by
  unfold loadStatistics
  split
  · cases st <;> simp [countAnalyzeReqs, isAnalyzeReq]
  · simp [countAnalyzeReqs]

theorem setActiveLayer_no_analyze (s : DashState) (L : Layer) (st : StatsOutcome) :
    countAnalyzeReqs (setActiveLayer s L st).2 = 0 := by
  unfold setActiveLayer
  dsimp only
  split
  · exact loadStatistics_no_analyze _ _ _
  · simp [countAnalyzeReqs]

theorem updateLayerVisibility_no_analyze (s : DashState) (L : Layer) (v : Bool) (st : StatsOutcome) :
    countAnalyzeReqs (updateLayerVisibility s L v st).2 = 0 := by
  unfold updateLayerVisibility
  dsimp only
  split
  · exact setActiveLayer_no_analyze _ _ _
  · split
    · exact setActiveLayer_no_analyze _ _ _
    · simp [countAnalyzeReqs]

/-- C8: on ROI deletion (`shape-deleted`), `layersAnalyzed` resets to
all-false, every toggle becomes disabled and unchecked, all overlays are
removed from the map, the coordinate readout reverts to its placeholder,
forest's status text reads the ready/default placeholder, and forest alone
carries the `active` visual state. -/
theorem shapeDeleted_resets (s : DashState) :
    (∀ L, (shapeDeleted s).layersAnalyzed L = false) ∧
    (∀ L, (shapeDeleted s).toggleDisabled L = true) ∧
    (∀ L, (shapeDeleted s).toggleChecked L = false) ∧
    (∀ L, (shapeDeleted s).overlayOnMap L = false) ∧
    (shapeDeleted s).coordsDisplay = "Draw a polygon on the map to see coordinates here..." ∧
    (shapeDeleted s).layerStatus Layer.forest = "Ready (Default)" ∧
    (∀ L, (shapeDeleted s).itemActive L = decide (L = Layer.forest)) := by
  refine ⟨fun L => rfl, fun L => rfl, fun L => rfl, fun L => rfl, rfl, rfl, fun L => rfl⟩

/-- C9: a call of `analyzeLayer` that reaches the fetch while the
resolution select is empty sends the fixed per-layer default resolution
with the request; the defaults table gives tundra 250 and chlorophyll
4638. -/
theorem analyzeLayer_default_resolution (s : DashState) (L : Layer) (isRe : Bool)
    (o : AnalyzeOutcome) (ld : LoadOutcome) (st : StatsOutcome)
    (hroi : s.roiSetup = true) (hres : s.resolutionVal = none)
    (hgo : s.layersAnalyzed L = true → isRe = true) :
    (analyzeLayer s L isRe o ld st).2.head? =
      some (Request.analyzeReq L (jsOrStr s.startDateVal "2021-01-01")
        (jsOrStr s.endDateVal "2023-01-01") (defaultResolution L)) ∧
    defaultResolution Layer.tundra = 250 ∧ defaultResolution Layer.chlorophyll = 4638 := by
  refine ⟨?_, rfl, rfl⟩
  unfold analyzeLayer
  have hguard : (s.layersAnalyzed L && !isRe) = false := by
    cases hA : s.layersAnalyzed L
    · simp
    · simp [hgo hA]
  cases o with
  | ok =>
      obtain ⟨tileOk, legendOk, hasKey⟩ := ld
      cases tileOk <;> cases legendOk <;>
        (simp [hroi, hguard, hres, showStatus, updateLayerStatus, loadLayerData]
         <;> (try (split <;> simp)))
  | appFail d => simp [hroi, hguard, hres, showStatus, updateLayerStatus, loadLayerData]
  | httpFail status d => simp [hroi, hguard, hres, showStatus, updateLayerStatus, loadLayerData]
  | exn m => simp [hroi, hguard, hres, showStatus, updateLayerStatus, loadLayerData]

theorem analyzeLayer_default_resolution_witness :
    (analyzeLayer sNoResolution Layer.tundra false AnalyzeOutcome.ok
        ⟨true, true, true⟩ StatsOutcome.okEmpty).2.head? =
      some (Request.analyzeReq Layer.tundra "2021-01-01" "2023-01-01" 250) := by
  have h := (analyzeLayer_default_resolution sNoResolution Layer.tundra false
    AnalyzeOutcome.ok ⟨true, true, true⟩ StatsOutcome.okEmpty rfl rfl (by decide)).1
  rw [h]
  decide

/-- C6: when `setupROI` fails — non-success status, non-2xx response, or a
thrown exception — the ROI is marked not established, all layer state is
reset to disabled, and the status message carries the server detail when
present and a generic fallback otherwise (an exception's message is used
as the detail; nothing propagates uncaught since the model is total). -/
theorem setupROI_failure (s : DashState) (o : RoiOutcome) (ld : LoadOutcome)
    (st : StatsOutcome) (m : String)
    (hpoly : s.hasPolygon = true) (hfail : roiFailMsg o = some m) :
    (setupROI s o ld st).1.roiSetup = false ∧
    (∀ L, (setupROI s o ld st).1.toggleDisabled L = true) ∧
    (∀ L, (setupROI s o ld st).1.toggleChecked L = false) ∧
    (∀ L, (setupROI s o ld st).1.layersAnalyzed L = false) ∧
    (setupROI s o ld st).1.statusMsg = m ∧
    (setupROI s o ld st).1.statusType = "error" := by
  unfold setupROI
  rw [hpoly]
  cases o with
  | ok a => exact absurd hfail (by simp [roiFailMsg])
  | appFail d =>
      simp only [roiFailMsg, Option.some.injEq] at hfail
      subst hfail
      exact ⟨rfl, fun L => rfl, fun L => rfl, fun L => rfl, rfl, rfl⟩
  | httpFail c d =>
      simp only [roiFailMsg, Option.some.injEq] at hfail
      subst hfail
      exact ⟨rfl, fun L => rfl, fun L => rfl, fun L => rfl, rfl, rfl⟩
  | exn msg =>
      simp only [roiFailMsg, Option.some.injEq] at hfail
      subst hfail
      exact ⟨rfl, fun L => rfl, fun L => rfl, fun L => rfl, rfl, rfl⟩

theorem setupROI_failure_witness :
    (setupROI sDrawn (RoiOutcome.exn "Failed to fetch") ⟨false, false, false⟩
        StatsOutcome.fail).1.roiSetup = false ∧
    (setupROI sDrawn (RoiOutcome.exn "Failed to fetch") ⟨false, false, false⟩
        StatsOutcome.fail).1.statusMsg = "Error: Failed to fetch" := by
  have h := setupROI_failure sDrawn (RoiOutcome.exn "Failed to fetch") ⟨false, false, false⟩
    StatsOutcome.fail "Error: Failed to fetch" rfl rfl
  exact ⟨h.1, h.2.2.2.2.1⟩

/-- C5: a successful `setupROI` establishes the ROI, resets the analysis
map to exactly forest-true/others-false, enables every layer's toggle,
caches forest's tile overlay and legend, makes the forest overlay visible,
makes forest the active layer, and reports the returned `area_km2` rounded
to two decimals in the status message. -/
theorem setupROI_success (s : DashState) (a : ℚ) (k : Bool) (c : String)
    (hpoly : s.hasPolygon = true) :
    (setupROI s (RoiOutcome.ok a) ⟨true, true, k⟩ (StatsOutcome.okData c)).1.roiSetup = true ∧
    (∀ L, (setupROI s (RoiOutcome.ok a) ⟨true, true, k⟩ (StatsOutcome.okData c)).1.layersAnalyzed L = decide (L = Layer.forest)) ∧
    (∀ L, (setupROI s (RoiOutcome.ok a) ⟨true, true, k⟩ (StatsOutcome.okData c)).1.toggleDisabled L = false) ∧
    (setupROI s (RoiOutcome.ok a) ⟨true, true, k⟩ (StatsOutcome.okData c)).1.overlayCached Layer.forest = true ∧
    (setupROI s (RoiOutcome.ok a) ⟨true, true, k⟩ (StatsOutcome.okData c)).1.legendCached Layer.forest = some k ∧
    (setupROI s (RoiOutcome.ok a) ⟨true, true, k⟩ (StatsOutcome.okData c)).1.overlayOnMap Layer.forest = true ∧
    (setupROI s (RoiOutcome.ok a) ⟨true, true, k⟩ (StatsOutcome.okData c)).1.currentActiveLayer = Layer.forest ∧
    (setupROI s (RoiOutcome.ok a) ⟨true, true, k⟩ (StatsOutcome.okData c)).1.toggleChecked Layer.forest = true ∧
    (setupROI s (RoiOutcome.ok a) ⟨true, true, k⟩ (StatsOutcome.okData c)).1.layerStatus Layer.forest = "Analyzed" ∧
    (setupROI s (RoiOutcome.ok a) ⟨true, true, k⟩ (StatsOutcome.okData c)).1.statusMsg =
      "ROI setup complete! Forest analysis ready. Area: " ++ jsToFixed a 2 ++ " km²" ∧
    (setupROI s (RoiOutcome.ok a) ⟨true, true, k⟩ (StatsOutcome.okData c)).1.statusType = "success" := by
  unfold setupROI
  rw [hpoly]
  cases k <;>
    exact ⟨rfl, fun L => by cases L <;> rfl, fun L => by cases L <;> rfl, rfl, rfl, rfl, rfl,
      rfl, rfl, rfl, rfl⟩

theorem setupROI_success_witness :
    (setupROI sDrawn (RoiOutcome.ok (mkRat 123456 10000)) ⟨true, true, true⟩
        (StatsOutcome.okData "x")).1.statusMsg =
      "ROI setup complete! Forest analysis ready. Area: 12.35 km²" ∧
    (setupROI sDrawn (RoiOutcome.ok (mkRat 123456 10000)) ⟨true, true, true⟩
        (StatsOutcome.okData "x")).1.currentActiveLayer = Layer.forest ∧
    (setupROI sDrawn (RoiOutcome.ok (mkRat 123456 10000)) ⟨true, true, true⟩
        (StatsOutcome.okData "x")).1.roiSetup = true := by
  have h := setupROI_success sDrawn (mkRat 123456 10000) true "x" rfl
  refine ⟨?_, h.2.2.2.2.2.2.1, h.1⟩
  rw [h.2.2.2.2.2.2.2.2.2.1]
  decide

theorem lastVisibleAnalyzed_hide (s : DashState) (f g : Layer → Bool) :
    lastVisibleAnalyzed { s with overlayOnMap := f, itemActive := g } =
      lastVisibleAnalyzed s := rfl

theorem setActiveLayer_currentActiveLayer (s : DashState) (L : Layer) (st : StatsOutcome) :
    (setActiveLayer s L st).1.currentActiveLayer = L := by
  unfold setActiveLayer loadStatistics
  dsimp only
  repeat' split
  all_goals rfl

theorem setActiveLayer_mapLegendVisible (s : DashState) (L : Layer) (st : StatsOutcome) :
    (setActiveLayer s L st).1.mapLegendVisible = s.mapLegendVisible := by
  unfold setActiveLayer loadStatistics showStatus
  dsimp only
  repeat' split
  all_goals rfl

theorem setActiveLayer_legendShownFor (s : DashState) (L : Layer) (st : StatsOutcome) :
    (setActiveLayer s L st).1.legendShownFor = s.legendShownFor := by
  unfold setActiveLayer loadStatistics showStatus
  dsimp only
  repeat' split
  all_goals rfl

theorem setActiveLayer_itemActive (s : DashState) (L : Layer) (st : StatsOutcome) :
    (setActiveLayer s L st).1.itemActive = s.itemActive := by
  unfold setActiveLayer loadStatistics showStatus
  dsimp only
  repeat' split
  all_goals rfl

theorem setActiveLayer_layersAnalyzed (s : DashState) (L : Layer) (st : StatsOutcome) :
    (setActiveLayer s L st).1.layersAnalyzed = s.layersAnalyzed := by
  unfold setActiveLayer loadStatistics showStatus
  dsimp only
  repeat' split
  all_goals rfl

theorem foldl_scan_last {α : Type} (p : α → Bool) :
    ∀ (l : List α) (acc : Option α),
      l.foldl (fun a x => if p x then some x else a) acc =
        ((l.filter p).getLast?).or acc := by
  intro l
  induction l with
  | nil => intro acc; rfl
  | cons x xs ih =>
      intro acc
      cases hx : p x with
      | false =>
          simp only [List.foldl_cons, List.filter_cons, hx, Bool.false_eq_true, if_false, ih]
      | true =>
          simp only [List.foldl_cons, List.filter_cons, hx, eq_self_iff_true, if_true, ih]
          cases hfx : xs.filter p with
          | nil => simp
          | cons y ys =>
              simp only [List.getLast?_cons_cons]
              cases hys : (y :: ys).getLast? with
              | none => simp at hys
              | some z => simp

/-- C7: `updateLayerVisibility(L, false)` (invoked with L's toggle already
unchecked) scans the seven layers in enumeration order for a checked,
analyzed layer — the scan keeps the last such layer of the enumeration,
i.e. the last element of the filtered `validLayers` list; when it finds
one, that layer becomes the new active layer, its item is marked active
and its cached legend is shown; when it finds none, the legend panel is
hidden and the active state is removed from every statistics panel. -/
theorem updateLayerVisibility_hide (s : DashState) (L : Layer) (st : StatsOutcome)
    (hunchecked : s.toggleChecked L = false) :
    lastVisibleAnalyzed s =
      (validLayers.filter (fun l => s.toggleChecked l && s.layersAnalyzed l)).getLast? ∧
    (∀ M, lastVisibleAnalyzed s = some M → s.legendCached M = some true →
      (updateLayerVisibility s L false st).1.currentActiveLayer = M ∧
      (updateLayerVisibility s L false st).1.mapLegendVisible = true ∧
      (updateLayerVisibility s L false st).1.legendShownFor = some M ∧
      (updateLayerVisibility s L false st).1.itemActive M = true) ∧
    (lastVisibleAnalyzed s = none →
      (updateLayerVisibility s L false st).1.mapLegendVisible = false ∧
      ∀ P, (updateLayerVisibility s L false st).1.statsPanelActive P = false) := by
  refine ⟨?_, ?_, ?_⟩
  · unfold lastVisibleAnalyzed
    rw [foldl_scan_last]
    exact Option.or_none
  · intro M hM hleg
    have hM2 : lastVisibleAnalyzed
        { s with overlayOnMap := upd s.overlayOnMap L false,
                 itemActive := upd s.itemActive L false } = some M := by
      rw [lastVisibleAnalyzed_hide]; exact hM
    unfold updateLayerVisibility
    simp only [Bool.false_and, Bool.false_eq_true, if_false, hM2, hleg, showMapLegendFor]
    split <;>
      simp [setActiveLayer_currentActiveLayer, setActiveLayer_mapLegendVisible,
        setActiveLayer_legendShownFor, setActiveLayer_itemActive, upd]
  · intro hnone
    have hn2 : lastVisibleAnalyzed
        { s with overlayOnMap := upd s.overlayOnMap L false,
                 itemActive := upd s.itemActive L false } = none := by
      rw [lastVisibleAnalyzed_hide]; exact hnone
    unfold updateLayerVisibility
    simp only [Bool.false_and, Bool.false_eq_true, if_false, hn2]
    split <;> simp

theorem updateLayerVisibility_hide_witness :
    lastVisibleAnalyzed sWetlandSoil = some Layer.soil ∧
    (updateLayerVisibility sWetlandSoil Layer.wetland false StatsOutcome.okEmpty).1.currentActiveLayer = Layer.soil ∧
    (updateLayerVisibility sWetlandSoil Layer.wetland false StatsOutcome.okEmpty).1.mapLegendVisible = true ∧
    (updateLayerVisibility sWetlandSoil Layer.wetland false StatsOutcome.okEmpty).1.legendShownFor = some Layer.soil := by
  have h := (updateLayerVisibility_hide sWetlandSoil Layer.wetland StatsOutcome.okEmpty rfl).2.1
    Layer.soil (by decide) (by decide)
  exact ⟨by decide, h.1, h.2.1, h.2.2.1⟩

theorem loadLayerData_no_analyze (s : DashState) (L : Layer) (ld : LoadOutcome) :
    countAnalyzeReqs (loadLayerData s L ld).2 = 0 := by
  unfold loadLayerData
  dsimp only
  simp [countAnalyzeReqs, isAnalyzeReq]

theorem countFor_le_count (L : Layer) (reqs : List Request) :
    countAnalyzeReqsFor L reqs ≤ countAnalyzeReqs reqs := by
  unfold countAnalyzeReqsFor countAnalyzeReqs
  apply List.countP_mono_left
  intro r _ h
  cases r <;> simp_all [isAnalyzeReq]

theorem countFor_eq_zero (L : Layer) (reqs : List Request)
    (h : countAnalyzeReqs reqs = 0) : countAnalyzeReqsFor L reqs = 0 :=
  Nat.le_zero.mp (h ▸ countFor_le_count L reqs)

theorem updateLayerVisibility_no_analyze_for (M s L v st) :
    countAnalyzeReqsFor M (updateLayerVisibility s L v st).2 = 0 :=
  countFor_eq_zero _ _ (updateLayerVisibility_no_analyze _ _ _ _)

theorem setActiveLayer_no_analyze_for (M s L st) :
    countAnalyzeReqsFor M (setActiveLayer s L st).2 = 0 :=
  countFor_eq_zero _ _ (setActiveLayer_no_analyze _ _ _)

theorem loadLayerData_no_analyze_for (M s L ld) :
    countAnalyzeReqsFor M (loadLayerData s L ld).2 = 0 :=
  countFor_eq_zero _ _ (loadLayerData_no_analyze _ _ _)

theorem countFor_cons_self (L : Layer) (sd ed : String) (r : Nat) (reqs : List Request) :
    countAnalyzeReqsFor L (Request.analyzeReq L sd ed r :: reqs) =
      countAnalyzeReqsFor L reqs + 1 := by
  simp [countAnalyzeReqsFor, List.countP_cons]

theorem count_cons_analyze (l : Layer) (sd ed : String) (r : Nat) (reqs : List Request) :
    countAnalyzeReqs (Request.analyzeReq l sd ed r :: reqs) = countAnalyzeReqs reqs + 1 := by
  simp [countAnalyzeReqs, isAnalyzeReq, List.countP_cons]

theorem countFor_append (L : Layer) (l1 l2 : List Request) :
    countAnalyzeReqsFor L (l1 ++ l2) = countAnalyzeReqsFor L l1 + countAnalyzeReqsFor L l2 := by
  simp [countAnalyzeReqsFor]

theorem count_append (l1 l2 : List Request) :
    countAnalyzeReqs (l1 ++ l2) = countAnalyzeReqs l1 + countAnalyzeReqs l2 := by
  simp [countAnalyzeReqs]

theorem countFor_nil (L : Layer) : countAnalyzeReqsFor L [] = 0 := rfl

theorem count_nil : countAnalyzeReqs [] = 0 := rfl

theorem loadLayerData_reqs (s : DashState) (L : Layer) (ld : LoadOutcome) :
    (loadLayerData s L ld).2 = [Request.mapUrlReq L, Request.legendReq L] := by
  unfold loadLayerData
  dsimp only

theorem countFor_load_list (M L : Layer) :
    countAnalyzeReqsFor M [Request.mapUrlReq L, Request.legendReq L] = 0 := by
  simp [countAnalyzeReqsFor]

theorem count_load_list (L : Layer) :
    countAnalyzeReqs [Request.mapUrlReq L, Request.legendReq L] = 0 := by
  simp [countAnalyzeReqs, isAnalyzeReq]

theorem countFor_cons_mapUrl (M l : Layer) (reqs : List Request) :
    countAnalyzeReqsFor M (Request.mapUrlReq l :: reqs) = countAnalyzeReqsFor M reqs := by
  simp [countAnalyzeReqsFor, List.countP_cons]

theorem countFor_cons_legend (M l : Layer) (reqs : List Request) :
    countAnalyzeReqsFor M (Request.legendReq l :: reqs) = countAnalyzeReqsFor M reqs := by
  simp [countAnalyzeReqsFor, List.countP_cons]

theorem countFor_cons_stats (M l : Layer) (reqs : List Request) :
    countAnalyzeReqsFor M (Request.statsReq l :: reqs) = countAnalyzeReqsFor M reqs := by
  simp [countAnalyzeReqsFor, List.countP_cons]

theorem count_cons_mapUrl (l : Layer) (reqs : List Request) :
    countAnalyzeReqs (Request.mapUrlReq l :: reqs) = countAnalyzeReqs reqs := by
  simp [countAnalyzeReqs, isAnalyzeReq, List.countP_cons]

theorem count_cons_legend (l : Layer) (reqs : List Request) :
    countAnalyzeReqs (Request.legendReq l :: reqs) = countAnalyzeReqs reqs := by
  simp [countAnalyzeReqs, isAnalyzeReq, List.countP_cons]

theorem count_cons_stats (l : Layer) (reqs : List Request) :
    countAnalyzeReqs (Request.statsReq l :: reqs) = countAnalyzeReqs reqs := by
  simp [countAnalyzeReqs, isAnalyzeReq, List.countP_cons]

theorem analyzeLayer_fresh_one_request (s : DashState) (L : Layer)
    (o : AnalyzeOutcome) (ld : LoadOutcome) (st : StatsOutcome)
    (hroi : s.roiSetup = true) (hA : s.layersAnalyzed L = false) :
    countAnalyzeReqsFor L (analyzeLayer s L false o ld st).2 = 1 ∧
    countAnalyzeReqs (analyzeLayer s L false o ld st).2 = 1 := by
  unfold analyzeLayer
  cases o with
  | ok =>
      simp only [hroi, hA, Bool.not_true, Bool.false_and, Bool.false_eq_true, if_false]
      split <;>
        simp [loadLayerData_reqs, countFor_cons_self, count_cons_analyze, countFor_append,
          count_append, countFor_nil, count_nil, countFor_load_list, count_load_list,
          countFor_cons_mapUrl, countFor_cons_legend, countFor_cons_stats,
          count_cons_mapUrl, count_cons_legend, count_cons_stats,
          updateLayerVisibility_no_analyze, updateLayerVisibility_no_analyze_for,
          setActiveLayer_no_analyze, setActiveLayer_no_analyze_for]
  | appFail d =>
      simp [hroi, hA, countFor_cons_self, count_cons_analyze, countFor_nil, count_nil]
  | httpFail status d =>
      simp [hroi, hA, countFor_cons_self, count_cons_analyze, countFor_nil, count_nil]
  | exn m =>
      simp [hroi, hA, countFor_cons_self, count_cons_analyze, countFor_nil, count_nil]

theorem toggleOn_eq_analyze (s : DashState) (L : Layer) (o : AnalyzeOutcome)
    (ld : LoadOutcome) (st : StatsOutcome)
    (hLf : L ≠ Layer.forest) (hA : s.layersAnalyzed L = false) :
    toggleOn s L o ld st =
      analyzeLayer { s with toggleChecked := upd s.toggleChecked L true } L false o ld st := by
  cases L with
  | forest => exact absurd rfl hLf
  | wetland => simp [toggleOn, hA]
  | tundra => simp [toggleOn, hA]
  | grassland => simp [toggleOn, hA]
  | algal_blooms => simp [toggleOn, hA]
  | soil => simp [toggleOn, hA]
  | chlorophyll => simp [toggleOn, hA]

/-- C1 counterexample: calling `analyzeLayer(wetland, false)` with the ROI
established, wetland already analyzed, its toggle checked and its overlay
cached does issue a fetch — the statistics re-fetch performed by
`setActiveLayer` — so the call is not fetch-free as claimed. -/
theorem layer_toggle_request_contract_cex :
    (analyzeLayer sForestWetland Layer.wetland false AnalyzeOutcome.ok ⟨true, true, true⟩
        (StatsOutcome.okData "w")).2 = [Request.statsReq Layer.wetland] ∧
    (analyzeLayer sForestWetland Layer.wetland false AnalyzeOutcome.ok ⟨true, true, true⟩
        (StatsOutcome.okData "w")).2 ≠ [] := by
  exact ⟨by decide, by decide⟩

/-- C1 (amended): re-toggling an already-analyzed layer issues zero
analysis requests (only the statistics re-fetch of `setActiveLayer` may be
issued); toggling a non-forest layer on with the ROI set and the layer not
yet analyzed issues exactly one analysis request, which is for that layer;
the forest toggle handler never issues an analysis request. -/
theorem layer_toggle_request_contract :
    (∀ s L o ld st, s.roiSetup = true → s.layersAnalyzed L = true →
      countAnalyzeReqs (analyzeLayer s L false o ld st).2 = 0) ∧
    (∀ s L o ld st, L ≠ Layer.forest → s.roiSetup = true → s.layersAnalyzed L = false →
      countAnalyzeReqsFor L (toggleOn s L o ld st).2 = 1 ∧
      countAnalyzeReqs (toggleOn s L o ld st).2 = 1) ∧
    (∀ s o ld st, s.layersAnalyzed Layer.forest = false →
      (toggleOn s Layer.forest o ld st).2 = []) := by
  refine ⟨?_, ?_, ?_⟩
  · intro s L o ld st hroi hA
    unfold analyzeLayer
    have htrue : (s.layersAnalyzed L && !false) = true := by simp [hA]
    simp only [hroi, Bool.not_true, Bool.false_eq_true, if_false, htrue, eq_self_iff_true,
      if_true]
    split
    · exact updateLayerVisibility_no_analyze _ _ _ _
    · rfl
  · intro s L o ld st hLf hroi hA
    rw [toggleOn_eq_analyze s L o ld st hLf hA]
    exact analyzeLayer_fresh_one_request _ L o ld st hroi hA
  · intro s o ld st hA
    simp [toggleOn, hA]

theorem layer_toggle_request_contract_witness :
    countAnalyzeReqs (analyzeLayer sForestWetland Layer.wetland false AnalyzeOutcome.ok
      ⟨true, true, true⟩ (StatsOutcome.okData "w")).2 = 0 ∧
    countAnalyzeReqsFor Layer.tundra (toggleOn sNoResolution Layer.tundra AnalyzeOutcome.ok
      ⟨true, true, true⟩ StatsOutcome.okEmpty).2 = 1 := by
  have h1 := layer_toggle_request_contract.1 sForestWetland Layer.wetland AnalyzeOutcome.ok
    ⟨true, true, true⟩ (StatsOutcome.okData "w") rfl (by decide)
  have h2 := (layer_toggle_request_contract.2.1 sNoResolution Layer.tundra AnalyzeOutcome.ok
    ⟨true, true, true⟩ StatsOutcome.okEmpty (by decide) rfl (by decide)).1
  exact ⟨h1, h2⟩

/-- C2 counterexample: the initial state is reachable, no layer toggle is
checked, and yet `currentActiveLayer` names forest, a layer that is
neither analyzed nor visible — so it is not the case that whenever no
layer is visible there is no active layer. -/
theorem active_layer_invariant_cex :
    Reachable initState ∧ noLayerVisible initState = true ∧
    initState.currentActiveLayer = Layer.forest ∧
    initState.layersAnalyzed Layer.forest = false ∧
    initState.toggleChecked Layer.forest = false := by
  exact ⟨Reachable.init, by decide, rfl, rfl, rfl⟩

/-- C2 (amended): `setActiveLayer(L)` displays L's statistics panel exactly
when L is analyzed, removes the active mark from every other panel, and
records L as `currentActiveLayer`; `currentActiveLayer` itself is never
cleared — it is initialised to forest and keeps its last value — so it may
name a layer that is neither analyzed nor currently visible (the initial
state already does). -/
theorem setActiveLayer_active_panel (s : DashState) (L M : Layer) (st : StatsOutcome) :
    (setActiveLayer s L st).1.currentActiveLayer = L ∧
    (setActiveLayer s L st).1.statsPanelActive M = (decide (M = L) && s.layersAnalyzed L) := by
  refine ⟨setActiveLayer_currentActiveLayer _ _ _, ?_⟩
  unfold setActiveLayer loadStatistics
  dsimp only
  cases hA : s.layersAnalyzed L with
  | false => simp [hA]
  | true =>
      cases st <;> simp [hA, upd, showStatus] <;> by_cases hML : M = L <;> simp [hML]

/-- C4 counterexample: a forced re-analysis of the already-analyzed wetland
layer that fails (application-level failure with detail "boom") leaves
`analyzed[wetland]` equal to true, not false as the claim states for every
failing call. -/
theorem analyzeLayer_failure_cex :
    (analyzeLayer sForestWetland Layer.wetland true (AnalyzeOutcome.appFail (some "boom"))
        ⟨false, false, false⟩ StatsOutcome.fail).1.layersAnalyzed Layer.wetland = true ∧
    (analyzeLayer sForestWetland Layer.wetland true (AnalyzeOutcome.appFail (some "boom"))
        ⟨false, false, false⟩ StatsOutcome.fail).1.statusMsg =
      "wetland analysis failed: boom" := by
  exact ⟨by decide, by decide⟩

/-- C4 (amended): when `analyzeLayer(L, isReanalysis)` reaches the fetch
and the fetch fails, `analyzed[L]` is left unchanged (hence remains false
for every non-forced call, which only reaches the fetch when the layer is
not yet analyzed), the layer status is set to the corresponding retry
prompt, the status message is exactly the failure message embedding the
server-provided detail, and the toggle is unchecked exactly when the call
is not a forced re-analysis — a forced re-analysis leaves the toggle
untouched. -/
theorem analyzeLayer_failure_behavior (s : DashState) (L : Layer) (isRe : Bool)
    (o : AnalyzeOutcome) (ld : LoadOutcome) (st : StatsOutcome) (m p : String)
    (hroi : s.roiSetup = true)
    (hgo : s.layersAnalyzed L = true → isRe = true)
    (hm : analyzeFailMsg L o = some m)
    (hp : analyzeFailPrompt o = some p) :
    (analyzeLayer s L isRe o ld st).1.layersAnalyzed L = s.layersAnalyzed L ∧
    (analyzeLayer s L isRe o ld st).1.layerStatus L = p ∧
    (analyzeLayer s L isRe o ld st).1.statusMsg = m ∧
    (analyzeLayer s L isRe o ld st).1.statusType = "error" ∧
    (analyzeLayer s L isRe o ld st).1.toggleChecked L =
      (if isRe then s.toggleChecked L else false) := by
  unfold analyzeLayer
  cases isRe with
  | true =>
      cases o with
      | ok => exact absurd hm (by simp [analyzeFailMsg])
      | appFail d =>
          simp only [analyzeFailMsg, Option.some.injEq] at hm
          simp only [analyzeFailPrompt, Option.some.injEq] at hp
          subst hm; subst hp
          simp [hroi, showStatus, updateLayerStatus, upd]
      | httpFail status d =>
          simp only [analyzeFailMsg, Option.some.injEq] at hm
          simp only [analyzeFailPrompt, Option.some.injEq] at hp
          subst hm; subst hp
          simp [hroi, showStatus, updateLayerStatus, upd]
      | exn msg =>
          simp only [analyzeFailMsg, Option.some.injEq] at hm
          simp only [analyzeFailPrompt, Option.some.injEq] at hp
          subst hm; subst hp
          simp [hroi, showStatus, updateLayerStatus, upd]
  | false =>
      have hA : s.layersAnalyzed L = false := by
        cases hA0 : s.layersAnalyzed L
        · rfl
        · exact absurd (hgo hA0) Bool.false_ne_true
      cases o with
      | ok => exact absurd hm (by simp [analyzeFailMsg])
      | appFail d =>
          simp only [analyzeFailMsg, Option.some.injEq] at hm
          simp only [analyzeFailPrompt, Option.some.injEq] at hp
          subst hm; subst hp
          simp [hroi, hA, showStatus, updateLayerStatus, upd]
      | httpFail status d =>
          simp only [analyzeFailMsg, Option.some.injEq] at hm
          simp only [analyzeFailPrompt, Option.some.injEq] at hp
          subst hm; subst hp
          simp [hroi, hA, showStatus, updateLayerStatus, upd]
      | exn msg =>
          simp only [analyzeFailMsg, Option.some.injEq] at hm
          simp only [analyzeFailPrompt, Option.some.injEq] at hp
          subst hm; subst hp
          simp [hroi, hA, showStatus, updateLayerStatus, upd]

theorem analyzeLayer_failure_behavior_witness :
    (analyzeLayer sNoResolution Layer.wetland false
        (AnalyzeOutcome.httpFail 500 (some "GEE quota exceeded")) ⟨false, false, false⟩
        StatsOutcome.fail).1.statusMsg = "Error analyzing wetland: GEE quota exceeded" ∧
    strContainsSub "Error analyzing wetland: GEE quota exceeded" "GEE quota exceeded" = true ∧
    (analyzeLayer sNoResolution Layer.wetland false
        (AnalyzeOutcome.httpFail 500 (some "GEE quota exceeded")) ⟨false, false, false⟩
        StatsOutcome.fail).1.layersAnalyzed Layer.wetland = false ∧
    (analyzeLayer sNoResolution Layer.wetland false
        (AnalyzeOutcome.httpFail 500 (some "GEE quota exceeded")) ⟨false, false, false⟩
        StatsOutcome.fail).1.toggleChecked Layer.wetland = false := by
  have h := analyzeLayer_failure_behavior sNoResolution Layer.wetland false
    (AnalyzeOutcome.httpFail 500 (some "GEE quota exceeded")) ⟨false, false, false⟩
    StatsOutcome.fail "Error analyzing wetland: GEE quota exceeded"
    "Error - Click toggle to retry" rfl (by decide) (by decide) (by decide)
  refine ⟨h.2.2.1, by decide, ?_, ?_⟩
  · rw [h.1]; decide
  · rw [h.2.2.2.2]; decide

theorem truthyQ_zero : truthyQ (some (mkRat 0 1)) = false := by decide

/-- C3 counterexample: at start 100 ha and end 120 ha the wetland change
row renders "20.00 ha (20.0%)" with no plus sign, so the reported change
does not read "+20.00 ha (20.0%)" as the claim's example states. -/
theorem wetland_percent_change_cex :
    strContainsSub (displayWetlandStatistics wChangeExample) "+20.00 ha (20.0%)" = false ∧
    strContainsSub (displayWetlandStatistics wChangeExample) "20.00 ha (20.0%)" = true := by
  exact ⟨by decide, by decide⟩

/-- C3 (amended): for a change_over_time record with truthy start and end
years and a start/end area pair, the rendered row shows the start area,
the end area, their difference, and the percent change computed as
`(end-start)/start*100` rendered to one decimal — with no sign prefix; at
start 100.00 ha and end 120.00 ha the rendered change reads
"20.00 ha (20.0%)". -/
theorem wetland_percent_change (y1 y2 : Nat) (a b : ℚ)
    (hy1 : y1 ≠ 0) (hy2 : y2 ≠ 0) :
    displayWetlandStatistics
      { roi_area_km2 := none, area_km2 := none, roi_area_ha := none, mean_ndwi := none,
        mean_mndwi := none, wetland_class := none, water_frequency_index := none,
        change_over_time := some { start_year := some y1, end_year := some y2,
                                   wetland_area_ha := some (a, b) },
        biomass_carbon := none } =
      statHeader "🌊 Wetland Overview" ++ statHeader "📈 Wetland Change Over Time" ++
        wetlandChangeRow y1 y2 a b := by
  unfold displayWetlandStatistics
  simp [WetlandStats.isEmptyObj, truthyQ, truthyStr, truthyNat, hy1, hy2]

theorem wetland_percent_change_witness :
    displayWetlandStatistics
      { roi_area_km2 := none, area_km2 := none, roi_area_ha := none, mean_ndwi := none,
        mean_mndwi := none, wetland_class := none, water_frequency_index := none,
        change_over_time := some { start_year := some 2021, end_year := some 2023,
                                   wetland_area_ha := some (mkRat 100 1, mkRat 120 1) },
        biomass_carbon := none } =
      statHeader "🌊 Wetland Overview" ++ statHeader "📈 Wetland Change Over Time" ++
        statItem "Wetland Area (ha):"
          "100.00 ha (2021) → 120.00 ha (2023) → 20.00 ha (20.0%)" := by
  have h := wetland_percent_change 2021 2023 (mkRat 100 1) (mkRat 120 1)
    (by decide) (by decide)
  rw [h]
  decide

/-- C10 counterexample: the forest formatter omits the present-but-zero
`mean_NDVI` but renders the present-but-zero aboveground-biomass sub-field
(guarded by `!== undefined`), so present-and-zero numeric fields are not
omitted in every formatter, and zero is distinguishable from absent. -/
theorem zero_field_omission_cex :
    strContainsSub (displayForestStatistics fZeroExample) "Mean NDVI" = false ∧
    strContainsSub (displayForestStatistics fZeroExample) "Aboveground Biomass" = true ∧
    displayForestStatistics fZeroExample ≠ displayForestStatistics fZeroAbsent := by
  exact ⟨by decide, by decide, by decide⟩

/-- C10 (amended): numeric fields guarded by plain truthiness checks (the
top-level fields such as forest `mean_NDVI`, wetland `mean_ndwi`, algal
`mean_ndci`) are omitted when present but zero, exactly as if absent —
provided some other field keeps the record from hitting the empty-record
guard; numeric sub-fields guarded by `!== undefined` (such as the forest
biomass-partitioning fields) do render a zero value, so for them
present-and-zero is distinguishable from absent. -/
theorem zero_field_handling :
    (∀ r : ForestStats, ForestStats.isEmptyObj { r with mean_NDVI := none } = false →
      displayForestStatistics { r with mean_NDVI := some (mkRat 0 1) } =
        displayForestStatistics { r with mean_NDVI := none }) ∧
    (∀ r : WetlandStats, WetlandStats.isEmptyObj { r with mean_ndwi := none } = false →
      displayWetlandStatistics { r with mean_ndwi := some (mkRat 0 1) } =
        displayWetlandStatistics { r with mean_ndwi := none }) ∧
    (∀ r : AlgalStats, displayAlgalBloomsStatistics { r with mean_ndci := some (mkRat 0 1) } =
      displayAlgalBloomsStatistics { r with mean_ndci := none }) ∧
    displayForestStatistics fZeroExample ≠ displayForestStatistics fZeroAbsent := by
  refine ⟨?_, ?_, ?_, by decide⟩
  · intro r h
    unfold displayForestStatistics
    have h2 : ForestStats.isEmptyObj { r with mean_NDVI := some (mkRat 0 1) } = false := by
      simp [ForestStats.isEmptyObj]
    rw [h, h2]
    simp [truthyQ_zero, truthyQ]
  · intro r h
    unfold displayWetlandStatistics
    have h2 : WetlandStats.isEmptyObj { r with mean_ndwi := some (mkRat 0 1) } = false := by
      simp [WetlandStats.isEmptyObj]
    rw [h, h2]
    simp [truthyQ_zero, truthyQ]
  · intro r
    unfold displayAlgalBloomsStatistics
    simp [truthyQ_zero, truthyQ]

theorem zero_field_handling_witness :
    ForestStats.isEmptyObj { fZeroExample with mean_NDVI := none } = false ∧
    displayForestStatistics { fZeroExample with mean_NDVI := some (mkRat 0 1) } =
      displayForestStatistics { fZeroExample with mean_NDVI := none } := by
  exact ⟨by decide, zero_field_handling.1 fZeroExample (by decide)⟩
